import Mathlib

/-!
Formal model of the `lovers_base` database model (`src/lovers_base/model.py`).

The SQLAlchemy declarative classes are embedded as plain Lean structures; a
database state is a record of tables, each table a list of rows.  ORM
relationship attributes become functions over the database state that resolve
the declared foreign keys.  Python code that can raise is modelled with
`Option`/`Except`.
-/

namespace LoversBase

/-- Type of a person's genitalia (`class Genitalia(enum.Enum)`). -/
inductive Genitalia where
  | female
  | male
  | other
deriving DecidableEq, Repr

/-- Types of events organized (`class EventType(enum.Enum)`). -/
inductive EventType where
  | art_project
  | gentle_orgy
  | meeting
  | workshop
deriving DecidableEq, Repr

/-- Role of a participant in an event (`class Role(enum.Enum)`). -/
inductive Role where
  | participant
  | organizer
  | assistant
  | artist
  | model
  | staff
deriving DecidableEq, Repr

/-- Participation status of a participant (`class ParticipationStatus(enum.Enum)`). -/
inductive ParticipationStatus where
  | invited
  | declined
  | signed
  | rejected
  | queued
  | accepted
  | withdrew
  | cancelled
  | faded
  | participated
deriving DecidableEq, Repr

/-- A row of the `status_log` table (`class StatusLog`): composite primary key
(participation_id, position), a timestamp (modelled as an integer instant;
purely descriptive audit data), a status and optional notes. -/
structure StatusLog where
  participation_id : Nat
  position : Nat
  timestamp : Int
  status : ParticipationStatus
  notes : Option String
deriving DecidableEq, Repr

/-- A row of the `participation` table (`class Participation`) together with
its `status_log` relationship collection, in collection order.  The source
declares the collection's ordering key as `StatusLog.order` with collection
class `ordering_list('order')`, but `StatusLog` has no `order` attribute —
its column is named `position` — so no ordering of the collection by the
position column is established (see the theorems for C1 and C2). -/
structure Participation where
  id : Nat
  event_id : Nat
  participant_id : Nat
  role : Role
  invitation_source_id : Option Nat
  notes : Option String
  status_log : List StatusLog
deriving DecidableEq, Repr

/-- The error kinds of the system.  Modelled from the spec: the error
taxonomy (DuplicateParticipationError, InvalidInviterError, EmptyLogError,
ReferentialIntegrityError) is described in the spec but no exception classes
exist in the repository sources; in the code the empty-log case surfaces as
the indexing error of `status_log[-1]` and the uniqueness/foreign-key cases
as database integrity errors. -/
inductive LBError where
  | emptyLogError
  | duplicateParticipationError
  | invalidInviterError
  | referentialIntegrityError
deriving DecidableEq, Repr

/-- The `status` property of `Participation`:
`return self.status_log[-1].status`.  Indexing `[-1]` takes the last element
of the collection, in collection order, and fails on an empty log. -/
def Participation.status (p : Participation) : Except LBError ParticipationStatus :=
  match p.status_log.getLast? with
  | some entry => .ok entry.status
  | none => .error .emptyLogError

/-- A freshly constructed status-log object on the append path, before any
flush: the `position` column value, which stays unset (None) unless
something assigns it, and the `order` attribute that the source's collection
class `ordering_list('order')` manages — an attribute that is not a column
of the status_log table. -/
structure StatusLogInstance where
  position : Option Nat
  order : Option Nat
  timestamp : Int
  status : ParticipationStatus
deriving DecidableEq, Repr

/-- Appending one entry to the `status_log` collection as the source
configures it: the `ordering_list` collection class assigns the list index
of the new entry to the attribute named by its argument — `order`, not the
`position` column — so the entry's `position` column stays unset. -/
def appendStatusAsWritten (log : List StatusLogInstance) (st : ParticipationStatus)
    (ts : Int) : List StatusLogInstance :=
  log ++ [{ position := none, order := some log.length, timestamp := ts, status := st }]

/-! ### Theorems for the claims about the status log -/

/-- C1 (failing input): the source establishes no position ordering on the
`status_log` collection — the declared ordering key `StatusLog.order` is not
an attribute of `StatusLog`, whose column is `position` — so on a collection
holding [entry position 1 status signed, entry position 0 status invited] in
that order, the accessor `status_log[-1].status` returns `invited`, although
the entry with the maximum position (position 1, and every position is at
most 1) carries `signed`. -/
theorem current_status_not_max_position :
    (Participation.mk 1 1 1 .participant none none
        [StatusLog.mk 1 1 0 .signed none, StatusLog.mk 1 0 5 .invited none]).status =
      .ok .invited ∧
      (∀ e ∈ (Participation.mk 1 1 1 .participant none none
          [StatusLog.mk 1 1 0 .signed none, StatusLog.mk 1 0 5 .invited none]).status_log,
        e.position ≤ 1) ∧
      StatusLog.mk 1 1 0 .signed none ∈
        (Participation.mk 1 1 1 .participant none none
          [StatusLog.mk 1 1 0 .signed none, StatusLog.mk 1 0 5 .invited none]).status_log ∧
      (StatusLog.mk 1 1 0 .signed none).status ≠ .invited := by
  refine ⟨rfl, by decide, by decide, by decide⟩

/-- C2 (failing input): two appends of entries (invited, signed) to a fresh
participation through the `status_log` collection leave both entries'
`position` column unset — `ordering_list('order')` manages the nonexistent
`order` attribute instead — so the appended entries do not receive the
positions 0..N-1 (here `some 0`, `some 1`). -/
theorem append_does_not_assign_position :
    (appendStatusAsWritten (appendStatusAsWritten [] .invited 0) .signed 1).map
        StatusLogInstance.position = [none, none] ∧
      (appendStatusAsWritten (appendStatusAsWritten [] .invited 0) .signed 1).map
          StatusLogInstance.position ≠ (List.range 2).map some := by
  exact ⟨rfl, by decide⟩

/-- C3: querying the current status fails with `EmptyLogError` exactly when
the status log has no entries, and succeeds (returns some status) exactly
when the log is non-empty. -/
theorem status_empty_log_error (p : Participation) :
    (p.status = .error .emptyLogError ↔ p.status_log = []) ∧
      ((∃ s, p.status = .ok s) ↔ p.status_log ≠ []) := by
  constructor
  · constructor
    · intro h
      cases hlog : p.status_log.getLast? with
      | none => exact List.getLast?_eq_none_iff.mp hlog
      | some e => rw [Participation.status, hlog] at h; cases h
    · intro h
      rw [Participation.status, List.getLast?_eq_none_iff.mpr h]
  · constructor
    · rintro ⟨s, hs⟩ hnil
      rw [Participation.status, List.getLast?_eq_none_iff.mpr hnil] at hs
      cases hs
    · intro h
      rcases List.getLast?_eq_getLast _ h with hlast
      exact ⟨(p.status_log.getLast h).status, by rw [Participation.status, hlast]⟩

/-! ### The remaining tables and the database state -/

/-- A row of the `person` table (`class Person`): contact data of a person. -/
structure Person where
  id : Nat
  first_names : String
  last_name : String
  nickname : String
  email : String
  phone : Option String
  allergies : Option String
deriving DecidableEq, Repr

/-- The `name` property of `Person`: `return f"{self.nickname} {self.last_name}"`. -/
def Person.name (p : Person) : String :=
  p.nickname ++ " " ++ p.last_name

/-- A row of the `event` table (`class Event`); timestamps as integer instants. -/
structure Event where
  id : Nat
  name : String
  kind : EventType
  start_time : Int
  end_time : Int
  location_id : Option Nat
  language : Option String
deriving DecidableEq, Repr

/-- A row of the `participant` table (`class Participant`). -/
structure Participant where
  id : Nat
  birth_year : Option Int
  genitalia : Genitalia
deriving DecidableEq, Repr

/-- A row of the `orientation` table (`class Orientation`); its `id` is a
foreign key to `participant.id` declared with `ondelete="CASCADE"`. -/
structure Orientation where
  id : Nat
  female : Option Int
  male : Option Int
  other : Option Int
  comment : Option String
deriving DecidableEq, Repr

/-- A database state: one list of rows per table of the model that the
claims touch. -/
structure DBState where
  events : List Event
  participants : List Participant
  orientations : List Orientation
  participations : List Participation
deriving DecidableEq, Repr

/-! ### Theorem for the claim about Person.name -/

/-- C10: the derived `name` of a Person is its nickname, a single space, and
its last name; the `first_names` field does not influence it. -/
theorem person_name_nickname_last (p : Person) :
    p.name = p.nickname ++ " " ++ p.last_name ∧
      ∀ fn : String, ({ p with first_names := fn } : Person).name = p.name := by
  exact ⟨rfl, fun _ => rfl⟩

/-! ### The uniqueness constraints of the participation table -/

/-- The uniqueness constraints declared on the `participation` table in the
source: `id` is the primary key, and `event_id` and `participant_id` are
each declared `unique=True` as individual columns.  An insert is admitted
exactly when it violates none of these against the existing rows. -/
def participationInsertAllowed (existing : List Participation) (p : Participation) : Bool :=
  existing.all (fun q => q.id != p.id) &&
    existing.all (fun q => q.event_id != p.event_id) &&
    existing.all (fun q => q.participant_id != p.participant_id)

/-- Modelled from the spec: uniqueness is required "per participant-event
pair" — an insert is admitted unless some existing row has both the same
participant and the same event. -/
def participationPairAllowed (existing : List Participation) (p : Participation) : Bool :=
  existing.all (fun q => !(q.participant_id == p.participant_id && q.event_id == p.event_id))

/-- C4 (failing input): with an existing participation (id 1, participant 1,
event 1), inserting (id 2, participant 2, event 1) — same event, different
participant — is rejected by the declared per-column unique constraints,
and likewise (id 3, participant 1, event 2) — same participant, different
event — even though both satisfy participant-event pair uniqueness. -/
theorem shared_column_insert_rejected :
    participationInsertAllowed
        [Participation.mk 1 1 1 .participant none none []]
        (Participation.mk 2 1 2 .participant none none []) = false ∧
      participationPairAllowed
        [Participation.mk 1 1 1 .participant none none []]
        (Participation.mk 2 1 2 .participant none none []) = true ∧
      participationInsertAllowed
        [Participation.mk 1 1 1 .participant none none []]
        (Participation.mk 3 2 1 .participant none none []) = false ∧
      participationPairAllowed
        [Participation.mk 1 1 1 .participant none none []]
        (Participation.mk 3 2 1 .participant none none []) = true ∧
      participationPairAllowed
        [Participation.mk 1 1 1 .participant none none []]
        (Participation.mk 4 1 1 .participant none none []) = false := by
  decide

/-! ### Deleting a participant -/

/-- Deleting a Participant row.  The `participation.participant_id` foreign
key carries no ondelete action, so deleting a participant that is still
referenced by a participation is refused by the database; the
`orientation.id` foreign key is declared `ondelete="CASCADE"` (and the ORM
relationship carries `cascade="all, delete-orphan"`), so the participant's
orientation row is deleted together with it.  No other table is touched. -/
def deleteParticipant (db : DBState) (pid : Nat) : Except LBError DBState :=
  if db.participations.any (fun p => p.participant_id == pid) then
    .error .referentialIntegrityError
  else
    .ok { db with
          participants := db.participants.filter (fun a => a.id != pid)
          orientations := db.orientations.filter (fun o => o.id != pid) }

/-- C9: a successful delete of a participant removes its orientation
sub-record (cascade), leaves every other orientation, every other
participant, and the whole event and participation tables untouched, and
preserves the integrity invariant that every orientation row has an owning
participant — so an orientation never outlives its participant. -/
theorem delete_participant_cascades_orientation (db : DBState) (pid : Nat)
    (db2 : DBState) (h : deleteParticipant db pid = .ok db2) :
    (∀ o ∈ db2.orientations, o.id ≠ pid) ∧
      (∀ o ∈ db.orientations, o.id ≠ pid → o ∈ db2.orientations) ∧
      (∀ o ∈ db2.orientations, o ∈ db.orientations) ∧
      (∀ a ∈ db.participants, a.id ≠ pid → a ∈ db2.participants) ∧
      db2.events = db.events ∧ db2.participations = db.participations ∧
      ((∀ o ∈ db.orientations, ∃ a ∈ db.participants, a.id = o.id) →
        ∀ o ∈ db2.orientations, ∃ a ∈ db2.participants, a.id = o.id) := by
  rw [deleteParticipant] at h
  split at h
  · cases h
  · have hdb : db2 = { db with
        participants := db.participants.filter (fun a => a.id != pid)
        orientations := db.orientations.filter (fun o => o.id != pid) } :=
      (Except.ok.injEq _ _ ▸ h).symm
    subst hdb
    refine ⟨?_, ?_, ?_, ?_, rfl, rfl, ?_⟩
    · intro o ho
      have := (List.mem_filter.mp ho).2
      simpa using this
    · intro o ho hne
      exact List.mem_filter.mpr ⟨ho, by simpa using hne⟩
    · intro o ho
      exact (List.mem_filter.mp ho).1
    · intro a ha hne
      exact List.mem_filter.mpr ⟨ha, by simpa using hne⟩
    · intro hfk o ho
      have ho2 := List.mem_filter.mp ho
      rcases hfk o ho2.1 with ⟨a, ha, hid⟩
      refine ⟨a, List.mem_filter.mpr ⟨ha, ?_⟩, hid⟩
      have : o.id ≠ pid := by simpa using ho2.2
      simpa using hid ▸ this

/-- Concrete instance for C9: deleting participant 1 from a database with
participants 1 and 2 and orientations owned by each removes exactly
orientation 1 and participant 1 and preserves the ownership invariant. -/
theorem delete_participant_cascades_orientation_witness :
    (∀ o ∈ (DBState.mk [] [Participant.mk 2 none .male]
        [Orientation.mk 2 none none none none] []).orientations, o.id ≠ 1) ∧
      (∀ o ∈ (DBState.mk []
          [Participant.mk 1 none .female, Participant.mk 2 none .male]
          [Orientation.mk 1 none none none none, Orientation.mk 2 none none none none]
          []).orientations, o.id ≠ 1 →
        o ∈ (DBState.mk [] [Participant.mk 2 none .male]
          [Orientation.mk 2 none none none none] []).orientations) ∧
      (∀ o ∈ (DBState.mk [] [Participant.mk 2 none .male]
          [Orientation.mk 2 none none none none] []).orientations,
        o ∈ (DBState.mk []
          [Participant.mk 1 none .female, Participant.mk 2 none .male]
          [Orientation.mk 1 none none none none, Orientation.mk 2 none none none none]
          []).orientations) ∧
      (∀ a ∈ (DBState.mk []
          [Participant.mk 1 none .female, Participant.mk 2 none .male]
          [Orientation.mk 1 none none none none, Orientation.mk 2 none none none none]
          []).participants, a.id ≠ 1 →
        a ∈ (DBState.mk [] [Participant.mk 2 none .male]
          [Orientation.mk 2 none none none none] []).participants) ∧
      (DBState.mk [] [Participant.mk 2 none .male]
        [Orientation.mk 2 none none none none] []).events =
        (DBState.mk []
          [Participant.mk 1 none .female, Participant.mk 2 none .male]
          [Orientation.mk 1 none none none none, Orientation.mk 2 none none none none]
          []).events ∧
      (DBState.mk [] [Participant.mk 2 none .male]
        [Orientation.mk 2 none none none none] []).participations =
        (DBState.mk []
          [Participant.mk 1 none .female, Participant.mk 2 none .male]
          [Orientation.mk 1 none none none none, Orientation.mk 2 none none none none]
          []).participations ∧
      ((∀ o ∈ (DBState.mk []
          [Participant.mk 1 none .female, Participant.mk 2 none .male]
          [Orientation.mk 1 none none none none, Orientation.mk 2 none none none none]
          []).orientations, ∃ a ∈ (DBState.mk []
            [Participant.mk 1 none .female, Participant.mk 2 none .male]
            [Orientation.mk 1 none none none none, Orientation.mk 2 none none none none]
            []).participants, a.id = o.id) →
        ∀ o ∈ (DBState.mk [] [Participant.mk 2 none .male]
            [Orientation.mk 2 none none none none] []).orientations,
          ∃ a ∈ (DBState.mk [] [Participant.mk 2 none .male]
            [Orientation.mk 2 none none none none] []).participants, a.id = o.id) :=
  delete_participant_cascades_orientation
    (DBState.mk []
      [Participant.mk 1 none .female, Participant.mk 2 none .male]
      [Orientation.mk 1 none none none none, Orientation.mk 2 none none none none]
      [])
    1
    (DBState.mk [] [Participant.mk 2 none .male]
      [Orientation.mk 2 none none none none] [])
    (by rfl)

/-! ### Relationship attributes of Participation -/

/-- The `event` relationship of `Participation`:
`relationship(lambda: Event, uselist=False)`, resolved through the
`event_id` foreign key into the event table. -/
def Participation.event (db : DBState) (p : Participation) : Option Event :=
  db.events.find? (fun e => e.id == p.event_id)

/-- The `participant` relationship of `Participation`, faithful to its
declaration in the source: `relationship(lambda: Event, uselist=False)` —
its target class is `Event` (a copy of the `event` line above it), so it
resolves through the only foreign key into the event table, `event_id`, to
the row's Event and not to a Participant, although the class docstring and
the annotations of `get_inviter`/`get_companions` promise a Participant. -/
def Participation.participant (db : DBState) (p : Participation) : Option Event :=
  db.events.find? (fun e => e.id == p.event_id)

/-- The runtime value of a relationship attribute: a scalar row or None on
a many-to-one side, or a collection of rows on a one-to-many side. -/
inductive RelValue where
  | scalar : Option Participation → RelValue
  | collection : List Participation → RelValue
deriving DecidableEq, Repr

/-- A runtime failure of the dynamic language: reading an attribute an
object does not have, or iterating a non-iterable object. -/
inductive PyError where
  | attributeError
  | typeError
deriving DecidableEq, Repr

/-- The `invitation_targets` relationship as declared in the source:
`relationship(lambda: Participation, remote_side=[id], backref='invitation_source')`.
Placing `remote_side` on the `id` column makes this declared name the
many-to-one accessor that resolves the row's own `invitation_source_id` to
the inviting row, or None — although the class docstring describes
`invitation_targets` as the list of invited participations. -/
def Participation.invitation_targets (db : DBState) (p : Participation) : RelValue :=
  .scalar (p.invitation_source_id.bind
    (fun sid => db.participations.find? (fun q => q.id == sid)))

/-- The `invitation_source` backref of that relationship: the one-to-many
collection of the rows citing this row through their `invitation_source_id`
— although the class docstring describes `invitation_source` as the single
inviting participation. -/
def Participation.invitation_source (db : DBState) (p : Participation) : RelValue :=
  .collection (db.participations.filter (fun q => q.invitation_source_id == some p.id))

/-- Python's `x is not None` on a relationship value: only a scalar None is
None; a collection object, even an empty one, is not None. -/
def RelValue.isNotNone : RelValue → Bool
  | .scalar none => false
  | .scalar (some _) => true
  | .collection _ => true

/-- Reading the `participant` attribute of a relationship value: defined on
a row object — where the mis-declared relationship above yields the row's
Event — and a runtime fault on None and on a collection object, which have
no such attribute. -/
def RelValue.participantAttr (db : DBState) : RelValue → Except PyError (Option Event)
  | .scalar (some q) => .ok (q.participant db)
  | .scalar none => .error .attributeError
  | .collection _ => .error .attributeError

/-- Iterating a relationship value, as the generator inside `get_companions`
does: a collection yields its rows; a scalar row or None is not iterable. -/
def RelValue.iterate : RelValue → Except PyError (List Participation)
  | .collection l => .ok l
  | .scalar _ => .error .typeError

/-- `get_inviter` as written in the source:
`source = self.invitation_source; return source.participant if source is not
None else None`.  The bound `invitation_source` is the invitee collection,
which is never None, so the attribute branch is always taken. -/
def Participation.get_inviter (db : DBState) (p : Participation) :
    Except PyError (Option Event) :=
  let source := p.invitation_source db
  if source.isNotNone then source.participantAttr db else .ok none

/-- `get_companions` as written in the source:
`tuple(target.participant for target in self.invitation_targets)` — the
generator iterates `invitation_targets`, which is the scalar inviter
accessor. -/
def Participation.get_companions (db : DBState) (p : Participation) :
    Except PyError (List (Option Event)) :=
  match (p.invitation_targets db).iterate with
  | .ok targets => .ok (targets.map (fun t => t.participant db))
  | .error e => .error e

/-- Modelled from the spec: `get_inviter` returns "the Participant behind
the `invitation_source` participation, or absent if none" — resolving the
`invitation_source_id` reference to its row's participant. -/
def get_inviter_spec (db : DBState) (p : Participation) : Option Participant :=
  p.invitation_source_id.bind (fun sid =>
    (db.participations.find? (fun q => q.id == sid)).bind
      (fun src => db.participants.find? (fun a => a.id == src.participant_id)))

/-- Modelled from the spec: `get_companions` returns the Participants whose
Participation records have this one as `invitation_source`. -/
def get_companions_spec (db : DBState) (p : Participation) : List (Option Participant) :=
  (db.participations.filter (fun q => q.invitation_source_id == some p.id)).map
    (fun t => db.participants.find? (fun a => a.id == t.participant_id))

/-- Example database for the invitation accessors: event 10 with organizer
participation 1 (participant 1) and participation 2 (participant 2) invited
by participation 1. -/
def invDB : DBState :=
  { events := [Event.mk 10 "meet" .meeting 0 1 none none]
    participants := [Participant.mk 1 none .female, Participant.mk 2 none .male]
    orientations := []
    participations :=
      [Participation.mk 1 10 1 .organizer none none [StatusLog.mk 1 0 0 .signed none],
       Participation.mk 2 10 2 .participant (some 1) none [StatusLog.mk 2 0 0 .invited none]] }

/-- C7 (failing input): on `invDB`, `get_inviter` fails with an attribute
error both on participation 2, which participation 1 invited, and on
participation 1, which has no inviter — the bound `invitation_source` is the
invitee collection, a list object that is never None and has no
`participant` attribute — instead of returning the inviting Participant 1,
respectively None, as the spec-modelled accessor does.  Moreover the
`participant` relationship coincides with the `event` relationship, so even
in the documented direction it could only produce Event rows. -/
theorem get_inviter_attribute_error :
    Participation.get_inviter invDB
        (Participation.mk 2 10 2 .participant (some 1) none
          [StatusLog.mk 2 0 0 .invited none]) = .error .attributeError ∧
      Participation.get_inviter invDB
          (Participation.mk 1 10 1 .organizer none none
            [StatusLog.mk 1 0 0 .signed none]) = .error .attributeError ∧
      get_inviter_spec invDB
          (Participation.mk 2 10 2 .participant (some 1) none
            [StatusLog.mk 2 0 0 .invited none]) = some (Participant.mk 1 none .female) ∧
      get_inviter_spec invDB
          (Participation.mk 1 10 1 .organizer none none
            [StatusLog.mk 1 0 0 .signed none]) = none ∧
      ∀ (db : DBState) (q : Participation),
        Participation.participant db q = Participation.event db q := by
  exact ⟨rfl, rfl, rfl, rfl, fun db q => rfl⟩

/-- C8 (failing input): on `invDB`, `get_companions` fails with a type error
both on participation 1, which invited participation 2, and on participation
2, which invited nobody — the iterated `invitation_targets` is the
many-to-one inviter accessor, here None respectively the scalar inviting
row, neither of which is iterable — instead of yielding companion
Participant 2, respectively the empty tuple, as the spec-modelled accessor
does. -/
theorem get_companions_type_error :
    Participation.get_companions invDB
        (Participation.mk 1 10 1 .organizer none none
          [StatusLog.mk 1 0 0 .signed none]) = .error .typeError ∧
      Participation.get_companions invDB
          (Participation.mk 2 10 2 .participant (some 1) none
            [StatusLog.mk 2 0 0 .invited none]) = .error .typeError ∧
      get_companions_spec invDB
          (Participation.mk 1 10 1 .organizer none none
            [StatusLog.mk 1 0 0 .signed none]) = [some (Participant.mk 2 none .male)] ∧
      get_companions_spec invDB
          (Participation.mk 2 10 2 .participant (some 1) none
            [StatusLog.mk 2 0 0 .invited none]) = [] := by
  exact ⟨rfl, rfl, rfl, rfl⟩

/-! ### Creation of participations (modelled from the spec)

The repository sources only declare the schema; the creation operation of
the spec, with its duplicate, cross-event and cycle checks, does not appear
in them and is modelled here from the spec's words. -/

/-- The arguments of the spec's creation contract
`create(participant, event, role, invitation_source, initial_status,
initial_timestamp)`. -/
structure CreateRequest where
  participant_id : Nat
  event_id : Nat
  role : Role
  invitation_source_id : Option Nat
  initial_status : ParticipationStatus
  initial_timestamp : Int
deriving DecidableEq, Repr

/-- The largest participation id of a table (0 when empty). -/
def maxIdOf : List Participation → Nat
  | [] => 0
  | p :: t => max p.id (maxIdOf t)

/-- A fresh id for a new participation row (the autoincrementing primary key). -/
def freshId (db : DBState) : Nat :=
  maxIdOf db.participations + 1

/-- The invitation source id recorded for the row with id `sid`, if any. -/
def nextSource (db : DBState) (sid : Nat) : Option Nat :=
  match db.participations.find? (fun q => q.id == sid) with
  | some q => q.invitation_source_id
  | none => none

/-- The chain of invitation ancestors starting from id `sid`: `sid` followed
by the chain of its row's invitation source; `fuel` bounds the walk. -/
def ancestorChain (db : DBState) : Nat → Nat → List Nat
  | 0, sid => [sid]
  | fuel + 1, sid =>
    sid ::
      (match nextSource db sid with
       | some sid2 => ancestorChain db fuel sid2
       | none => [])

/-- Inserting the new participation row together with its first status-log
entry (position 0). -/
def insertParticipation (db : DBState) (r : CreateRequest) : DBState :=
  { db with
    participations := db.participations ++
      [{ id := freshId db
         event_id := r.event_id
         participant_id := r.participant_id
         role := r.role
         invitation_source_id := r.invitation_source_id
         notes := none
         status_log :=
           [{ participation_id := freshId db
              position := 0
              timestamp := r.initial_timestamp
              status := r.initial_status
              notes := none }] }] }

/-- Modelled from the spec: the creation contract of §4.2, absent from the
repository sources.  It constructs a Participation and its first status-log
entry together; it fails with DuplicateParticipationError when the
(participant, event) pair already exists, with ReferentialIntegrityError
when the named inviter row does not exist, and with InvalidInviterError when
the inviter belongs to a different event or the invitation chain from the
inviter would lead back to the new row.  (Existence of the participant and
event rows themselves is the persistence layer's concern, §6.) -/
def createParticipation (db : DBState) (r : CreateRequest) : Except LBError DBState :=
  if db.participations.any
      (fun q => q.participant_id == r.participant_id && q.event_id == r.event_id) then
    .error .duplicateParticipationError
  else
    match r.invitation_source_id with
    | none => .ok (insertParticipation db r)
    | some sid =>
      match db.participations.find? (fun q => q.id == sid) with
      | none => .error .referentialIntegrityError
      | some src =>
        if src.event_id != r.event_id then
          .error .invalidInviterError
        else if (ancestorChain db (db.participations.length + 1) sid).contains (freshId db) then
          .error .invalidInviterError
        else
          .ok (insertParticipation db r)

/-- Running a sequence of creation requests, keeping the previous state
whenever a request is rejected. -/
def applyRequests (db : DBState) : List CreateRequest → DBState
  | [] => db
  | r :: rs =>
    match createParticipation db r with
    | .ok db2 => applyRequests db2 rs
    | .error _ => applyRequests db rs

/-- The empty database. -/
def emptyDB : DBState :=
  { events := [], participants := [], orientations := [], participations := [] }

/-- The invariant maintained by `createParticipation`: every stored
invitation link points at an existing participation of the same event with
a strictly smaller id. -/
def LinkInv (db : DBState) : Prop :=
  ∀ p ∈ db.participations, ∀ sid, p.invitation_source_id = some sid →
    sid < p.id ∧ ∃ q ∈ db.participations, q.id = sid ∧ q.event_id = p.event_id

/-- Every stored invitation link joins two participations of one event. -/
def SameEventLinks (db : DBState) : Prop :=
  ∀ p ∈ db.participations, ∀ sid, p.invitation_source_id = some sid →
    ∃ q ∈ db.participations, q.id = sid ∧ q.event_id = p.event_id

/-- Acyclicity of the invitation graph: no participation's id occurs in the
ancestor chain starting from its own invitation source, whatever the fuel. -/
def AcyclicInvitations (db : DBState) : Prop :=
  ∀ p ∈ db.participations, ∀ sid, p.invitation_source_id = some sid →
    ∀ fuel, p.id ∉ ancestorChain db fuel sid

theorem mem_le_maxIdOf {p : Participation} :
    ∀ {l : List Participation}, p ∈ l → p.id ≤ maxIdOf l := by
  intro l
  induction l with
  | nil => intro h; cases h
  | cons a t ih =>
    intro h
    rcases List.mem_cons.mp h with rfl | h2
    · exact le_max_left _ _
    · exact le_trans (ih h2) (le_max_right _ _)

theorem nextSource_lt (db : DBState) (hinv : LinkInv db) (sid sid2 : Nat)
    (h : nextSource db sid = some sid2) : sid2 < sid := by
  rw [nextSource] at h
  cases hfind : db.participations.find? (fun q => q.id == sid) with
  | none => rw [hfind] at h; cases h
  | some q =>
    rw [hfind] at h
    have hq : q ∈ db.participations := List.mem_of_find?_eq_some hfind
    have hqid : q.id = sid := by simpa using List.find?_some hfind
    have := (hinv q hq sid2 h).1
    omega

theorem ancestorChain_le (db : DBState) (hinv : LinkInv db) :
    ∀ fuel sid, ∀ k ∈ ancestorChain db fuel sid, k ≤ sid := by
  intro fuel
  induction fuel with
  | zero =>
    intro sid k hk
    rw [ancestorChain] at hk
    rcases List.mem_singleton.mp hk with rfl
    exact le_refl _
  | succ n ih =>
    intro sid k hk
    rw [ancestorChain] at hk
    rcases List.mem_cons.mp hk with rfl | hk2
    · exact le_refl _
    · cases hns : nextSource db sid with
      | none => rw [hns] at hk2; simp at hk2
      | some sid2 =>
        rw [hns] at hk2
        have hle : k ≤ sid2 := ih sid2 k hk2
        have hlt := nextSource_lt db hinv sid sid2 hns
        omega

theorem insert_linkInv (db : DBState) (r : CreateRequest) (hinv : LinkInv db)
    (hsrc : ∀ sid, r.invitation_source_id = some sid →
      ∃ q ∈ db.participations, q.id = sid ∧ q.event_id = r.event_id) :
    LinkInv (insertParticipation db r) := by
  intro p hp sid hpsid
  simp only [insertParticipation, List.mem_append, List.mem_singleton] at hp
  rcases hp with hp | rfl
  · rcases hinv p hp sid hpsid with ⟨hlt, q, hq, hqid, hqev⟩
    exact ⟨hlt, q, List.mem_append_left _ hq, hqid, hqev⟩
  · rcases hsrc sid hpsid with ⟨q, hq, hqid, hqev⟩
    constructor
    · show sid < freshId db
      have h1 : q.id ≤ maxIdOf db.participations := mem_le_maxIdOf hq
      have h2 : freshId db = maxIdOf db.participations + 1 := rfl
      omega
    · exact ⟨q, List.mem_append_left _ hq, hqid, hqev⟩

theorem createParticipation_ok_linkInv (db : DBState) (r : CreateRequest)
    (db2 : DBState) (hinv : LinkInv db)
    (h : createParticipation db r = .ok db2) : LinkInv db2 := by
  rw [createParticipation] at h
  split at h
  · simp at h
  · cases hsrc : r.invitation_source_id with
    | none =>
      simp only [hsrc, Except.ok.injEq] at h
      subst h
      apply insert_linkInv db r hinv
      intro sid2 hs2
      rw [hsrc] at hs2
      cases hs2
    | some sid =>
      simp only [hsrc] at h
      cases hfind : db.participations.find? (fun q => q.id == sid) with
      | none => simp only [hfind] at h; cases h
      | some src =>
        simp only [hfind] at h
        cases hev : src.event_id != r.event_id with
        | true => simp only [hev, if_true, reduceCtorEq] at h
        | false =>
          simp only [hev, Bool.false_eq_true, if_false] at h
          cases hcyc :
              (ancestorChain db (db.participations.length + 1) sid).contains (freshId db) with
          | true => simp only [hcyc, if_true, reduceCtorEq] at h
          | false =>
            simp only [hcyc, Bool.false_eq_true, if_false, Except.ok.injEq] at h
            subst h
            apply insert_linkInv db r hinv
            intro sid2 hs2
            rw [hsrc] at hs2
            cases hs2
            have hqmem : src ∈ db.participations := List.mem_of_find?_eq_some hfind
            have hqid : src.id = sid := by simpa using List.find?_some hfind
            have hevent : src.event_id = r.event_id := by
              simpa using hev
            exact ⟨src, hqmem, hqid, hevent⟩

theorem applyRequests_linkInv (reqs : List CreateRequest) :
    ∀ db : DBState, LinkInv db → LinkInv (applyRequests db reqs) := by
  induction reqs with
  | nil => intro db h; exact h
  | cons r rs ih =>
    intro db h
    rw [applyRequests]
    cases hc : createParticipation db r with
    | ok db2 => exact ih db2 (createParticipation_ok_linkInv db r db2 h hc)
    | error e => exact ih db h

theorem emptyDB_linkInv : LinkInv emptyDB := by
  intro p hp
  cases hp

theorem linkInv_acyclic (db : DBState) (hinv : LinkInv db) :
    AcyclicInvitations db := by
  intro p hp sid hpsid fuel hmem
  have hle := ancestorChain_le db hinv fuel sid p.id hmem
  have hlt := (hinv p hp sid hpsid).1
  omega

/-! ### Theorems for the claims about creation -/

/-- C5: creating a participation whose inviter belongs to a different event
fails with InvalidInviterError (the state is passed explicitly, so nothing
is stored on the error path), and after any sequence of creation requests
from the empty database every stored invitation link joins two
participations of the same event. -/
theorem cross_event_inviter_rejected :
    (∀ (db : DBState) (r : CreateRequest) (sid : Nat) (src : Participation),
        r.invitation_source_id = some sid →
        db.participations.any
          (fun q => q.participant_id == r.participant_id && q.event_id == r.event_id) = false →
        db.participations.find? (fun q => q.id == sid) = some src →
        src.event_id ≠ r.event_id →
        createParticipation db r = .error .invalidInviterError) ∧
      ∀ reqs : List CreateRequest, SameEventLinks (applyRequests emptyDB reqs) := by
  constructor
  · intro db r sid src h1 h2 h3 h4
    have hbne : (src.event_id != r.event_id) = true := by simpa using h4
    rw [createParticipation]
    simp only [h2, Bool.false_eq_true, if_false, h1]
    rw [h3]
    simp [hbne]
  · intro reqs
    intro p hp sid hs
    exact (applyRequests_linkInv reqs emptyDB emptyDB_linkInv p hp sid hs).2

/-- Concrete instance for C5: with one participation of event 5 stored,
creating a participation of event 6 that cites it as inviter fails with
InvalidInviterError, and a two-request same-event creation sequence from the
empty database keeps every invitation link within one event. -/
theorem cross_event_inviter_rejected_witness :
    createParticipation
        (DBState.mk [] [] [] [Participation.mk 1 5 1 .participant none none []])
        (CreateRequest.mk 2 6 .participant (some 1) .invited 0) =
      .error .invalidInviterError ∧
      SameEventLinks (applyRequests emptyDB
        [CreateRequest.mk 1 7 .organizer none .signed 0,
         CreateRequest.mk 2 7 .participant (some 1) .invited 0]) :=
  ⟨cross_event_inviter_rejected.1
      (DBState.mk [] [] [] [Participation.mk 1 5 1 .participant none none []])
      (CreateRequest.mk 2 6 .participant (some 1) .invited 0)
      1 (Participation.mk 1 5 1 .participant none none [])
      rfl rfl rfl (by decide),
    cross_event_inviter_rejected.2
      [CreateRequest.mk 1 7 .organizer none .signed 0,
       CreateRequest.mk 2 7 .participant (some 1) .invited 0]⟩

/-- C6: after any sequence of creation requests starting from the empty
database the invitation graph is acyclic — no participation's id is
reachable along `invitation_source` links from its own invitation source —
and a creation that passes the duplicate and same-event checks but whose
invitation chain would lead back to the new row fails with
InvalidInviterError. -/
theorem invitation_graph_acyclic :
    (∀ reqs : List CreateRequest, AcyclicInvitations (applyRequests emptyDB reqs)) ∧
      ∀ (db : DBState) (r : CreateRequest) (sid : Nat) (src : Participation),
        r.invitation_source_id = some sid →
        db.participations.any
          (fun q => q.participant_id == r.participant_id && q.event_id == r.event_id) = false →
        db.participations.find? (fun q => q.id == sid) = some src →
        src.event_id = r.event_id →
        (ancestorChain db (db.participations.length + 1) sid).contains (freshId db) = true →
        createParticipation db r = .error .invalidInviterError := by
  constructor
  · intro reqs
    exact linkInv_acyclic _ (applyRequests_linkInv reqs emptyDB emptyDB_linkInv)
  · intro db r sid src h1 h2 h3 h4 h5
    have hbne : (src.event_id != r.event_id) = false := by simp [h4]
    rw [createParticipation]
    simp only [h2, Bool.false_eq_true, if_false, h1]
    rw [h3]
    simp only [hbne, Bool.false_eq_true, if_false]
    simp [hbne]
    simpa using h5

/-- Concrete instance for C6: the invitation graph built by two creation
requests from the empty database is acyclic, and on a database whose single
participation (id 1, event 8) dangles to the id the new row would receive,
a creation citing it as inviter fails the cycle check with
InvalidInviterError. -/
theorem invitation_graph_acyclic_witness :
    AcyclicInvitations (applyRequests emptyDB
        [CreateRequest.mk 1 8 .organizer none .signed 0,
         CreateRequest.mk 2 8 .participant (some 1) .invited 0]) ∧
      createParticipation
          (DBState.mk [] [] [] [Participation.mk 1 8 1 .participant (some 2) none []])
          (CreateRequest.mk 9 8 .participant (some 1) .invited 0) =
        .error .invalidInviterError :=
  ⟨invitation_graph_acyclic.1
      [CreateRequest.mk 1 8 .organizer none .signed 0,
       CreateRequest.mk 2 8 .participant (some 1) .invited 0],
    invitation_graph_acyclic.2
      (DBState.mk [] [] [] [Participation.mk 1 8 1 .participant (some 2) none []])
      (CreateRequest.mk 9 8 .participant (some 1) .invited 0)
      1 (Participation.mk 1 8 1 .participant (some 2) none [])
      rfl rfl rfl rfl rfl⟩

end LoversBase
